import Mathlib

/-!
Shallow embedding of the order-pricing and order-lifecycle core of
`fractrade_hl_simple` (file `src/fractrade_hl_simple/hyperliquid.py` and the
trailing-stop example `examples/trailing_stop.py`).

Python floats are modelled as exact rationals (`ℚ`); Python's banker's
rounding (`round`) and the `%.5g` significant-figure formatting are modelled
in exact decimal semantics.  Functions that raise exceptions are modelled with
`Except String`; exchange interactions are passed in as explicit data
(`Except`-valued fetch results, outcome functions).
-/

/- ------------------------------------------------------------------ -/
/- Rounding primitives (Python `round` and `%.5g` string formatting). -/

/-- Round-half-to-even of a rational to an integer, the semantics of Python's
builtin `round(x)` on exact decimal values. -/
def rndHalfEven (x : ℚ) : ℤ :=
  if x - ⌊x⌋ < 1/2 then ⌊x⌋
  else if 1/2 < x - ⌊x⌋ then ⌊x⌋ + 1
  else if ⌊x⌋ % 2 = 0 then ⌊x⌋ else ⌊x⌋ + 1

/-- Python `round(x, n)` with `n` decimal places: scale, round half-to-even,
unscale. -/
def pyRound (x : ℚ) (n : ℕ) : ℚ :=
  (rndHalfEven (x * 10 ^ n) : ℚ) / 10 ^ n

/-- Number of decimal digits of a natural number (`0` has one digit). -/
def ndigits (n : ℕ) : ℕ := (Nat.toDigits 10 n).length

/-- Floor of the base-10 logarithm of a positive rational. -/
def floorLog10 (q : ℚ) : ℤ :=
  if 1 ≤ q then (ndigits ⌊q⌋.toNat : ℤ) - 1
  else -(ndigits (⌈1/q⌉.toNat - 1) : ℤ)

/-- The rational `10 ^ e` for an integer exponent `e`. -/
def pow10 (e : ℤ) : ℚ :=
  if 0 ≤ e then (10:ℚ) ^ e.toNat else 1 / (10:ℚ) ^ (-e).toNat

/-- Round a positive rational to `figs` significant decimal figures
(half-to-even at the cut position), the decimal semantics of Python's
`float(f"{q:.{figs}g}")` for positive `q`. -/
def sigRoundPos (figs : ℕ) (q : ℚ) : ℚ :=
  rndHalfEven (q / pow10 (floorLog10 q - figs + 1)) * pow10 (floorLog10 q - figs + 1)

/-- Round a rational to `figs` significant decimal figures; negative values are
handled symmetrically and `0` is fixed, as in Python's `%g` formatting. -/
def sigRound (figs : ℕ) (q : ℚ) : ℚ :=
  if q < 0 then -(sigRoundPos figs (-q))
  else if q = 0 then 0
  else sigRoundPos figs q

/- ------------------------------------------------------------------ -/
/- Price/Size formatter: `HyperliquidClient._validate_and_format_order`. -/

/-- Market-specs lookup used by `_validate_and_format_order`: the
`size_decimals` entry for `symbol` in `self.market_specs`, defaulting to `3`
when the symbol is not in the table. -/
def lookupSizeDecimals (specs : List (String × ℕ)) (symbol : String) : ℕ :=
  match specs.find? (fun e => e.1 == symbol) with
  | some e => e.2
  | none => 3

/-- Price half of `_validate_and_format_order`: prices over `100_000` are
rounded to the nearest integer, all others to 5 significant figures. -/
def formatPrice (p : ℚ) : ℚ :=
  if 100000 < p then (rndHalfEven p : ℚ) else sigRound 5 p

/-- Embedding of `HyperliquidClient._validate_and_format_order(symbol, size,
limit_price)`: the size is rounded to the symbol's `size_decimals` and the
price (when present) is formatted by `formatPrice`. -/
def validate_and_format_order (specs : List (String × ℕ)) (symbol : String)
    (size : ℚ) (limit_price : Option ℚ) : ℚ × Option ℚ :=
  (pyRound size (lookupSizeDecimals specs symbol), limit_price.map formatPrice)

/- ------------------------------------------------------------------ -/
/- Domain model: orders, positions, raw exchange data.                -/

/-- Typed order as produced by the client (subset of the fields of the
`Order` model that the claims mention).  `type` is the derived
classification: `"limit"`, `"stop_loss"`, `"take_profit"` or `"unknown"`. -/
structure Order where
  order_id : String
  symbol : String
  is_buy : Bool
  size : ℚ
  reduce_only : Bool
  status : String
  time_in_force : String
  limit_price : Option ℚ
  trigger_price : Option ℚ
  filled_size : Option ℚ
  average_fill_price : Option ℚ
  type : Option String
deriving DecidableEq, Repr

/-- A position as used by `close`: its symbol and signed size
(positive = long, negative = short). -/
structure Position where
  symbol : String
  size : ℚ
deriving DecidableEq, Repr

/-- A raw open-order entry as returned by the exchange's open-orders
endpoints (`info.frontend_open_orders` / `info.open_orders`), with the fields
that `get_open_orders` and `cancel_all_orders` read. -/
structure RawOrder where
  coin : String
  side : String
  sz : ℚ
  origSz : ℚ
  oid : ℕ
  isTrigger : Bool
  orderType : String
  triggerPx : Option ℚ
  limitPx : Option ℚ
  reduceOnly : Bool
  tif : Option String
deriving DecidableEq, Repr

/- ------------------------------------------------------------------ -/
/- String containment, as Python's `"needle" in s`.                   -/

/-- Whether the first character list is a prefix of the second. -/
def charsStartWith : List Char → List Char → Bool
  | [], _ => true
  | _ :: _, [] => false
  | c :: cs, d :: ds => c == d && charsStartWith cs ds

/-- Whether the needle occurs as a contiguous run inside the haystack. -/
def charsContain (needle : List Char) : List Char → Bool
  | [] => charsStartWith needle []
  | c :: cs => charsStartWith needle (c :: cs) || charsContain needle cs

/-- Python's substring test `needle in s`. -/
def strContains (needle s : String) : Bool := charsContain needle.data s.data

/- ------------------------------------------------------------------ -/
/- `get_open_orders` and the stop-loss / take-profit price queries.   -/

/-- Classification step of `get_open_orders`: a trigger order whose textual
`orderType` contains `"Take Profit"` is a take-profit, one containing
`"Stop"` is a stop-loss, any other trigger order is `"unknown"`, and a
non-trigger order is a limit order. -/
def classifyRawOrder (o : RawOrder) : String :=
  if o.isTrigger then
    if strContains "Take Profit" o.orderType then "take_profit"
    else if strContains "Stop" o.orderType then "stop_loss"
    else "unknown"
  else "limit"

/-- Conversion of one raw open-order entry to the typed `Order`, as in the
loop body of `get_open_orders`. -/
def convertRawOrder (o : RawOrder) : Order :=
  { order_id := toString o.oid
  , symbol := o.coin
  , is_buy := o.side == "B"
  , size := o.sz
  , reduce_only := o.reduceOnly
  , status := "open"
  , time_in_force := o.tif.getD "Gtc"
  , limit_price := o.limitPx
  , trigger_price := o.triggerPx
  , filled_size := some (o.origSz - o.sz)
  , average_fill_price := none
  , type := some (classifyRawOrder o) }

/-- Embedding of `get_open_orders(symbol?)` for an authenticated client.
`fetch` is the outcome of the `info.frontend_open_orders` call: on any
exception the function logs and returns the empty list; otherwise the
response is optionally filtered by symbol and converted order by order. -/
def get_open_orders (fetch : Except String (List RawOrder))
    (symbol : Option String) : List Order :=
  match fetch with
  | .error _ => []
  | .ok raws =>
      (match symbol with
       | some s => raws.filter (fun (o : RawOrder) => o.coin == s)
       | none => raws).map convertRawOrder

/-- Embedding of `get_stop_loss_price(symbol)`: scan the open orders for the
symbol, keep those classified `"stop_loss"`, and return the trigger price of
the first one (or `none`). -/
def get_stop_loss_price (fetch : Except String (List RawOrder))
    (symbol : String) : Option ℚ :=
  match (get_open_orders fetch (some symbol)).filter
      (fun (o : Order) => o.type == some "stop_loss") with
  | [] => none
  | o :: _ => o.trigger_price

/-- Embedding of `get_take_profit_price(symbol)`: as `get_stop_loss_price`
with the `"take_profit"` classification. -/
def get_take_profit_price (fetch : Except String (List RawOrder))
    (symbol : String) : Option ℚ :=
  match (get_open_orders fetch (some symbol)).filter
      (fun (o : Order) => o.type == some "take_profit") with
  | [] => none
  | o :: _ => o.trigger_price

/- ------------------------------------------------------------------ -/
/- Order creation: `create_order` price synthesis and result handling. -/

/-- Market-order price synthesis in `create_order`: when no limit price is
given, the current price is taken and 0.5% slippage is applied (buy: +0.5%,
sell: -0.5%). -/
def marketOrderRawPrice (is_buy : Bool) (current_price : ℚ) : ℚ :=
  if is_buy then current_price * (1 + 5/1000) else current_price * (1 - 5/1000)

/-- Size and price that `create_order` passes to `exchange.order`: the limit
price (synthesized from the current price with slippage when absent) and the
size, run through `_validate_and_format_order`. -/
def create_order_submit (specs : List (String × ℕ)) (symbol : String)
    (size : ℚ) (is_buy : Bool) (limit_price : Option ℚ)
    (current_price : ℚ) : ℚ × Option ℚ :=
  validate_and_format_order specs symbol size
    (some (match limit_price with
           | none => marketOrderRawPrice is_buy current_price
           | some p => p))

/-- One entry of the `statuses` array in the exchange's structured order
submission result: an error message, a resting order id, or a fill. -/
inductive OrderStatusRaw where
  | errorStatus (msg : String)
  | resting (oid : ℕ)
  | filled (oid : ℕ) (avgPx : ℚ)
deriving DecidableEq, Repr

/-- Result interpretation of `create_order` given the `statuses` of the
submission response.  An `error` entry raises `ValueError("Order error: …")`,
which the surrounding `except` re-wraps as
`ValueError("Failed to place order: …")`; a `resting` entry yields an open
order, a `filled` entry a filled order with its average fill price; anything
else raises (wrapped) `"Unexpected response format"`. -/
def create_order_result (symbol : String) (is_buy : Bool) (size : ℚ)
    (limit_price : ℚ) (reduce_only : Bool) (time_in_force : String)
    (statuses : List OrderStatusRaw) : Except String Order :=
  match statuses with
  | .errorStatus msg :: _ =>
      .error ("Failed to place order: " ++ ("Order error: " ++ msg))
  | .resting oid :: _ =>
      .ok { order_id := toString oid, symbol := symbol, is_buy := is_buy
          , size := size, reduce_only := reduce_only, status := "open"
          , time_in_force := time_in_force, limit_price := some limit_price
          , trigger_price := none, filled_size := none
          , average_fill_price := none, type := none }
  | .filled oid avgPx :: _ =>
      .ok { order_id := toString oid, symbol := symbol, is_buy := is_buy
          , size := size, reduce_only := reduce_only, status := "filled"
          , time_in_force := time_in_force, limit_price := some limit_price
          , trigger_price := none, filled_size := some size
          , average_fill_price := some avgPx, type := none }
  | [] => .error ("Failed to place order: " ++ "Unexpected response format")

/- ------------------------------------------------------------------ -/
/- `close(symbol, position?)`.                                         -/

/-- Parameters of the order that `close` submits through `create_order`. -/
structure CloseOrderReq where
  symbol : String
  size : ℚ
  is_buy : Bool
  reduce_only : Bool
  time_in_force : String
deriving DecidableEq, Repr

/-- Embedding of `close(symbol, position?)`: when no position is supplied the
first fetched position with a matching symbol is used; with no position at
all it raises `"No open position found"`; otherwise it submits a reduce-only
immediate-or-cancel order of size `|position.size|`, buying exactly when the
position size is negative. -/
def close (positions : List Position) (position : Option Position)
    (symbol : String) : Except String CloseOrderReq :=
  match (match position with
         | some p => some p
         | none => positions.find? (fun p => p.symbol == symbol)) with
  | none => .error ("No open position found for " ++ symbol)
  | some p =>
      .ok { symbol := symbol, size := |p.size|, is_buy := decide (p.size < 0)
          , reduce_only := true, time_in_force := "Ioc" }

/- ------------------------------------------------------------------ -/
/- `cancel_all_orders(symbol?)`.                                       -/

/-- The per-order cancellation loop of `cancel_all_orders`: every order in
the list gets a cancel attempt; an attempt's failure (`cancelOk o = false`)
is logged and recorded but never interrupts the remaining attempts. -/
def cancelEachOrder (cancelOk : RawOrder → Bool) :
    List RawOrder → List (RawOrder × Bool)
  | [] => []
  | o :: rest => (o, cancelOk o) :: cancelEachOrder cancelOk rest

/-- Embedding of `cancel_all_orders(symbol?)` for an authenticated client.
`fetch` is the outcome of the `info.open_orders` call and `cancelOk` the
outcome of each individual `exchange.cancel` call.  The whole body runs in a
`try…except` that logs and swallows an enumeration failure, so the function
never raises; on success it filters by symbol and attempts to cancel each
order independently.  The returned list records the attempted orders with
their outcomes. -/
def cancel_all_orders (fetch : Except String (List RawOrder))
    (cancelOk : RawOrder → Bool) (symbol : Option String) :
    Except String (List (RawOrder × Bool)) :=
  match fetch with
  | .error _ => .ok []
  | .ok orders =>
      .ok (cancelEachOrder cancelOk
        (match symbol with
         | some s => orders.filter (fun (o : RawOrder) => o.coin == s)
         | none => orders))

/- ------------------------------------------------------------------ -/
/- Trailing-stop loop (`examples/trailing_stop.py`).                   -/

/-- Loop state of the trailing stop: the reference price (highest seen for a
long, lowest for a short) and the current stop-loss trigger price. -/
structure TrailState where
  reference_price : ℚ
  sl_price : ℚ
deriving DecidableEq, Repr

/-- One iteration of the trailing-stop loop for a long position: when the
current price exceeds the reference price, the reference price is updated and
a new stop `reference * (1 - trail_percent/100)` is computed; the stop-loss is
moved only when the new stop is strictly higher than the existing one. -/
def trailing_tick_long (trail_percent : ℚ) (s : TrailState)
    (current_price : ℚ) : TrailState :=
  if s.reference_price < current_price then
    if s.sl_price < current_price * (1 - trail_percent / 100) then
      ⟨current_price, current_price * (1 - trail_percent / 100)⟩
    else ⟨current_price, s.sl_price⟩
  else s

/-- One iteration of the trailing-stop loop for a short position: symmetric
to the long case, with `(1 + trail_percent/100)` and the inequalities
reversed. -/
def trailing_tick_short (trail_percent : ℚ) (s : TrailState)
    (current_price : ℚ) : TrailState :=
  if current_price < s.reference_price then
    if current_price * (1 + trail_percent / 100) < s.sl_price then
      ⟨current_price, current_price * (1 + trail_percent / 100)⟩
    else ⟨current_price, s.sl_price⟩
  else s

/-- The trailing-stop loop for a long position over a sequence of observed
prices. -/
def trailing_run_long (trail_percent : ℚ) (s : TrailState)
    (prices : List ℚ) : TrailState :=
  prices.foldl (trailing_tick_long trail_percent) s

/-- The trailing-stop loop for a short position over a sequence of observed
prices. -/
def trailing_run_short (trail_percent : ℚ) (s : TrailState)
    (prices : List ℚ) : TrailState :=
  prices.foldl (trailing_tick_short trail_percent) s

/- ------------------------------------------------------------------ -/
/- Optimal pricing engine.                                             -/

/-- Order book as used by the optimal pricing engine: the touch prices, both
absent when the corresponding side of the book is empty. -/
structure OrderBook where
  best_bid : Option ℚ
  best_ask : Option ℚ
deriving DecidableEq, Repr

/-- Modelled from the spec: `get_optimal_limit_price(symbol, side,
urgency_factor)` of the optimal pricing engine (§4.4) — its implementation is
not among the provided source files (only its tests and callers are).  The
urgency factor must lie in `[0,1]` and the side must be `"buy"` or `"sell"`,
else `InvalidArgument`; with both touch prices present the price is the
linear interpolation between the patient and aggressive touch prices; with
the book unavailable or one side empty it falls back to the current price
shifted by a small fixed premium (buy) or discount (sell), modelled here as
0.1%. -/
def get_optimal_limit_price (side : String) (urgency_factor : ℚ)
    (book : Option OrderBook) (current_price : ℚ) : Except String ℚ :=
  if ¬(side == "buy" || side == "sell") then
    .error "side must be buy or sell"
  else if ¬(0 ≤ urgency_factor ∧ urgency_factor ≤ 1) then
    .error "urgency_factor must be between 0.0 and 1.0"
  else
    match book with
    | some b =>
        match b.best_bid, b.best_ask with
        | some bid, some ask =>
            if side == "buy" then
              .ok (bid + urgency_factor * (ask - bid))
            else
              .ok (ask - urgency_factor * (ask - bid))
        | _, _ =>
            if side == "buy" then .ok (current_price * (1 + 1/1000))
            else .ok (current_price * (1 - 1/1000))
    | none =>
        if side == "buy" then .ok (current_price * (1 + 1/1000))
        else .ok (current_price * (1 - 1/1000))

/- ------------------------------------------------------------------ -/
/- Theorems.                                                           -/

/-- C1: with both touch prices present and an urgency factor in `[0,1]`,
`get_optimal_limit_price` returns `best_bid + u * (best_ask - best_bid)` for
side `"buy"` and `best_ask - u * (best_ask - best_bid)` for side `"sell"`;
at urgency `0` the buy price is the best bid and the sell price the best ask,
at urgency `1` the buy price is the best ask and the sell price the best
bid. -/
theorem optimal_limit_price_interpolates (bid ask current u : ℚ)
    (h0 : 0 ≤ u) (h1 : u ≤ 1) :
    get_optimal_limit_price "buy" u (some ⟨some bid, some ask⟩) current
        = .ok (bid + u * (ask - bid))
    ∧ get_optimal_limit_price "sell" u (some ⟨some bid, some ask⟩) current
        = .ok (ask - u * (ask - bid))
    ∧ get_optimal_limit_price "buy" 0 (some ⟨some bid, some ask⟩) current
        = .ok bid
    ∧ get_optimal_limit_price "sell" 0 (some ⟨some bid, some ask⟩) current
        = .ok ask
    ∧ get_optimal_limit_price "buy" 1 (some ⟨some bid, some ask⟩) current
        = .ok ask
    ∧ get_optimal_limit_price "sell" 1 (some ⟨some bid, some ask⟩) current
        = .ok bid := by
  refine ⟨?_, ?_, ?_, ?_, ?_, ?_⟩ <;>
    simp [get_optimal_limit_price, h0, h1]

/-- Witness for C1 at `bid = 50000`, `ask = 50001`, `u = 1/2`. -/
theorem optimal_limit_price_interpolates_witness :
    (0:ℚ) ≤ 1/2 ∧ (1/2:ℚ) ≤ 1 ∧
    get_optimal_limit_price "buy" (1/2) (some ⟨some 50000, some 50001⟩) 0
        = .ok (50000 + (1/2) * (50001 - 50000)) := by
  exact ⟨by norm_num, by norm_num,
    (optimal_limit_price_interpolates 50000 50001 0 (1/2)
      (by norm_num) (by norm_num)).1⟩

/-- C2: for a fixed well-formed book (`best_bid ≤ best_ask`, both present)
and a fixed side, the optimal limit price is monotone in the urgency factor:
non-decreasing for `"buy"` and non-increasing for `"sell"`. -/
theorem optimal_limit_price_monotone (bid ask current u1 u2 : ℚ)
    (hba : bid ≤ ask) (h0 : 0 ≤ u1) (h12 : u1 ≤ u2) (h1 : u2 ≤ 1) :
    (∀ p1 p2,
      get_optimal_limit_price "buy" u1 (some ⟨some bid, some ask⟩) current
          = .ok p1 →
      get_optimal_limit_price "buy" u2 (some ⟨some bid, some ask⟩) current
          = .ok p2 → p1 ≤ p2)
    ∧ (∀ q1 q2,
      get_optimal_limit_price "sell" u1 (some ⟨some bid, some ask⟩) current
          = .ok q1 →
      get_optimal_limit_price "sell" u2 (some ⟨some bid, some ask⟩) current
          = .ok q2 → q2 ≤ q1) := by
  have h0' : (0:ℚ) ≤ u2 := le_trans h0 h12
  have h1' : u1 ≤ 1 := le_trans h12 h1
  have key : (u2 - u1) * (ask - bid) ≥ 0 :=
    mul_nonneg (by linarith) (by linarith)
  constructor
  · intro p1 p2 e1 e2
    simp [get_optimal_limit_price, h0, h1, h0', h1'] at e1 e2
    nlinarith [key]
  · intro q1 q2 e1 e2
    simp [get_optimal_limit_price, h0, h1, h0', h1'] at e1 e2
    nlinarith [key]

/-- Witness for C2: at `bid = 50000`, `ask = 50001`, urgencies `0 ≤ 1`, the
buy price at urgency `0` is below the buy price at urgency `1`. -/
theorem optimal_limit_price_monotone_witness :
    get_optimal_limit_price "buy" 0 (some ⟨some 50000, some 50001⟩) 0
        = .ok 50000
    ∧ get_optimal_limit_price "buy" 1 (some ⟨some 50000, some 50001⟩) 0
        = .ok 50001
    ∧ (50000:ℚ) ≤ 50001 := by
  have e1 : get_optimal_limit_price "buy" 0 (some ⟨some 50000, some 50001⟩) 0
      = .ok 50000 := by
    simp [get_optimal_limit_price]
  have e2 : get_optimal_limit_price "buy" 1 (some ⟨some 50000, some 50001⟩) 0
      = .ok 50001 := by
    simp [get_optimal_limit_price]
  exact ⟨e1, e2,
    (optimal_limit_price_monotone 50000 50001 0 0 1 (by norm_num)
      (by norm_num) (by norm_num) (by norm_num)).1 _ _ e1 e2⟩

/-- C3: for every symbol and positive price, `_validate_and_format_order`
rounds the size to the symbol's `size_decimals` (3 when the symbol is not in
the market-specs table) and rounds the price to the nearest integer when it
exceeds `100000`, to 5 significant figures otherwise; in particular price
`123456.7` formats to `123457` and price `1234.567` formats to `1234.6`. -/
theorem validate_and_format_order_spec (specs : List (String × ℕ))
    (symbol : String) (size p : ℚ) (_hp : 0 < p) :
    validate_and_format_order specs symbol size (some p)
        = (pyRound size (lookupSizeDecimals specs symbol),
           some (if 100000 < p then (rndHalfEven p : ℚ) else sigRound 5 p))
    ∧ (specs.find? (fun e => e.1 == symbol) = none →
        lookupSizeDecimals specs symbol = 3)
    ∧ (validate_and_format_order specs "BTC" 1.23456 (some 123456.7)).2
        = some 123457
    ∧ (validate_and_format_order specs "BTC" 1.23456 (some 1234.567)).2
        = some 1234.6 := by
  refine ⟨by simp [validate_and_format_order, formatPrice], ?_, ?_, ?_⟩
  · intro h
    simp [lookupSizeDecimals, h]
  · have hfmt : formatPrice (123456.7:ℚ) = 123457 := by
      norm_num [formatPrice, rndHalfEven]
    simp [validate_and_format_order, hfmt]
  · have h1 : (1234:ℤ).toNat = 1234 := rfl
    have h2 : ndigits 1234 = 4 := by decide
    have e : floorLog10 (1234567/1000 : ℚ) = 3 := by
      norm_num [floorLog10, h1, h2]
    have h3 : (1:ℤ).toNat = 1 := rfl
    have hp10 : pow10 (-1 : ℤ) = 1/10 := by norm_num [pow10, h3]
    have hfmt : formatPrice (1234.567:ℚ) = 1234.6 := by
      norm_num [formatPrice, sigRound, sigRoundPos, e, hp10, rndHalfEven]
    simp [validate_and_format_order, hfmt]

/-- Witness for C3 at specs `[("BTC", 5)]`, size `1.23456`, price
`1234.567`. -/
theorem validate_and_format_order_spec_witness :
    (validate_and_format_order [("BTC", 5)] "BTC" 1.23456
        (some 1234.567)).2 = some 1234.6 :=
  (validate_and_format_order_spec [("BTC", 5)] "BTC" 1.23456 1234.567
    (by norm_num)).2.2.2

/-- C4: `close` with no supplied position and no fetched position for the
symbol fails with the position-not-found error; when a position with signed
size `s` is used (supplied or fetched), the submitted order is a reduce-only
immediate-or-cancel order with size `|s|` and `is_buy` exactly when `s < 0`;
for a short position of size `-0.5` the close order buys `0.5`. -/
theorem close_spec (positions : List Position) (symbol : String)
    (p : Position) :
    (positions.find? (fun q => q.symbol == symbol) = none →
        close positions none symbol
          = .error ("No open position found for " ++ symbol))
    ∧ (∀ r, close positions (some p) symbol = .ok r →
        r.size = |p.size| ∧ (r.is_buy = true ↔ p.size < 0)
          ∧ r.reduce_only = true ∧ r.time_in_force = "Ioc")
    ∧ (∀ r, positions.find? (fun q => q.symbol == symbol) = some p →
        close positions none symbol = .ok r →
        r.size = |p.size| ∧ (r.is_buy = true ↔ p.size < 0)
          ∧ r.reduce_only = true ∧ r.time_in_force = "Ioc")
    ∧ close positions (some ⟨"BTC", -(1/2)⟩) "BTC"
        = .ok ⟨"BTC", 1/2, true, true, "Ioc"⟩ := by
  refine ⟨?_, ?_, ?_, ?_⟩
  · intro h
    simp [close, h]
  · intro r hr
    simp [close] at hr
    subst hr
    simp
  · intro r hfind hr
    simp [close, hfind] at hr
    subst hr
    simp
  · simp [close]

/-- Witness for C4: an empty position list raises, and a supplied short
position of size `-0.5` closes with a buy of `0.5`. -/
theorem close_spec_witness :
    close [] none "BTC" = .error ("No open position found for " ++ "BTC")
    ∧ close [⟨"BTC", -(1/2)⟩] (some ⟨"BTC", -(1/2)⟩) "BTC"
        = .ok ⟨"BTC", 1/2, true, true, "Ioc"⟩ :=
  ⟨(close_spec [] "BTC" ⟨"BTC", 0⟩).1 rfl,
   (close_spec [⟨"BTC", -(1/2)⟩] "BTC" ⟨"BTC", -(1/2)⟩).2.2.2⟩

/-- C5: when `create_order` is called without a limit price, the synthesized
market-order price is the current price times `1.005` for a buy and `0.995`
for a sell, and the precision formatting is applied to this slippage-adjusted
price (never to the raw current price — at `current = 99999.5` formatting
after the slippage differs from formatting before it). -/
theorem create_order_market_slippage (specs : List (String × ℕ))
    (symbol : String) (size current : ℚ) :
    marketOrderRawPrice true current = current * 1.005
    ∧ marketOrderRawPrice false current = current * 0.995
    ∧ (create_order_submit specs symbol size true none current).2
        = some (formatPrice (current * 1.005))
    ∧ (create_order_submit specs symbol size false none current).2
        = some (formatPrice (current * 0.995))
    ∧ formatPrice ((99999.5:ℚ) * 1.005) ≠ formatPrice (99999.5:ℚ) * 1.005 := by
  have hb : marketOrderRawPrice true current = current * 1.005 := by
    norm_num [marketOrderRawPrice]
  have hs : marketOrderRawPrice false current = current * 0.995 := by
    norm_num [marketOrderRawPrice]
  refine ⟨hb, hs, ?_, ?_, ?_⟩
  · simp [create_order_submit, validate_and_format_order, hb]
  · simp [create_order_submit, validate_and_format_order, hs]
  · have hafter : formatPrice ((99999.5:ℚ) * 1.005) = 100499 := by
      norm_num [formatPrice, rndHalfEven]
    have h1 : (99999:ℤ).toNat = 99999 := rfl
    have h2 : ndigits 99999 = 5 := by decide
    have e : floorLog10 (199999/2 : ℚ) = 4 := by
      norm_num [floorLog10, h1, h2]
    have hp10 : pow10 (0 : ℤ) = 1 := by norm_num [pow10]
    have hbefore : formatPrice (99999.5:ℚ) = 100000 := by
      norm_num [formatPrice, sigRound, sigRoundPos, e, hp10, rndHalfEven]
    rw [hafter, hbefore]
    norm_num

/-- Helper: the head of a filtered list is the first element satisfying the
predicate. -/
theorem filter_head?_eq_find? {α : Type} (p : α → Bool) :
    ∀ l : List α, (l.filter p).head? = l.find? p := by
  intro l
  induction l with
  | nil => rfl
  | cons a t ih =>
      by_cases h : p a
      · simp [List.filter_cons, h, List.find?_cons_of_pos _ h]
      · simp [List.filter_cons, h, List.find?_cons_of_neg _ h, ih]

/-- C6: `get_stop_loss_price` returns `none` when no open order for the
symbol is classified `"stop_loss"`, and otherwise the trigger price of the
first such order in response order, no matter how many exist; symmetrically
for `get_take_profit_price` and `"take_profit"`. -/
theorem stop_loss_take_profit_price_first
    (fetch : Except String (List RawOrder)) (symbol : String) (o : Order) :
    ((∀ u ∈ get_open_orders fetch (some symbol), u.type ≠ some "stop_loss") →
        get_stop_loss_price fetch symbol = none)
    ∧ ((get_open_orders fetch (some symbol)).find?
          (fun u => u.type == some "stop_loss") = some o →
        get_stop_loss_price fetch symbol = o.trigger_price)
    ∧ ((∀ u ∈ get_open_orders fetch (some symbol),
          u.type ≠ some "take_profit") →
        get_take_profit_price fetch symbol = none)
    ∧ ((get_open_orders fetch (some symbol)).find?
          (fun u => u.type == some "take_profit") = some o →
        get_take_profit_price fetch symbol = o.trigger_price) := by
  refine ⟨?_, ?_, ?_, ?_⟩
  · intro h
    have hf : (get_open_orders fetch (some symbol)).filter
        (fun (u : Order) => u.type == some "stop_loss") = [] := by
      simp only [List.filter_eq_nil_iff]
      intro u hu
      simpa using h u hu
    simp [get_stop_loss_price, hf]
  · intro h
    rw [← filter_head?_eq_find?] at h
    cases hf : (get_open_orders fetch (some symbol)).filter
        (fun (u : Order) => u.type == some "stop_loss") with
    | nil => rw [hf] at h; simp at h
    | cons u t =>
        rw [hf] at h
        simp at h
        subst h
        simp [get_stop_loss_price, hf]
  · intro h
    have hf : (get_open_orders fetch (some symbol)).filter
        (fun (u : Order) => u.type == some "take_profit") = [] := by
      simp only [List.filter_eq_nil_iff]
      intro u hu
      simpa using h u hu
    simp [get_take_profit_price, hf]
  · intro h
    rw [← filter_head?_eq_find?] at h
    cases hf : (get_open_orders fetch (some symbol)).filter
        (fun (u : Order) => u.type == some "take_profit") with
    | nil => rw [hf] at h; simp at h
    | cons u t =>
        rw [hf] at h
        simp at h
        subst h
        simp [get_take_profit_price, hf]

/-- Sample raw stop order (trigger, `"Stop Market"`, trigger price 95). -/
def sampleStopRaw1 : RawOrder :=
  { coin := "BTC", side := "A", sz := 1/2, origSz := 1/2, oid := 11
  , isTrigger := true, orderType := "Stop Market", triggerPx := some 95
  , limitPx := some 95, reduceOnly := true, tif := some "Gtc" }

/-- Second sample raw stop order (trigger price 90), after the first in
response order. -/
def sampleStopRaw2 : RawOrder :=
  { coin := "BTC", side := "A", sz := 1/2, origSz := 1/2, oid := 12
  , isTrigger := true, orderType := "Stop Market", triggerPx := some 90
  , limitPx := some 90, reduceOnly := true, tif := some "Gtc" }

/-- Sample raw take-profit order (trigger, `"Take Profit Market"`, trigger
price 120). -/
def sampleTpRaw : RawOrder :=
  { coin := "BTC", side := "A", sz := 1/2, origSz := 1/2, oid := 13
  , isTrigger := true, orderType := "Take Profit Market"
  , triggerPx := some 120, limitPx := some 120, reduceOnly := true
  , tif := some "Gtc" }

/-- Witness for C6: with two stop orders open, the first one's trigger price
is returned; the take-profit query picks the take-profit order; an empty
order set yields `none`. -/
theorem stop_loss_take_profit_price_first_witness :
    get_stop_loss_price (.ok [sampleTpRaw, sampleStopRaw1, sampleStopRaw2])
        "BTC" = (convertRawOrder sampleStopRaw1).trigger_price
    ∧ get_take_profit_price
        (.ok [sampleTpRaw, sampleStopRaw1, sampleStopRaw2]) "BTC"
        = (convertRawOrder sampleTpRaw).trigger_price
    ∧ get_stop_loss_price (.ok []) "BTC" = none :=
  ⟨(stop_loss_take_profit_price_first
      (.ok [sampleTpRaw, sampleStopRaw1, sampleStopRaw2]) "BTC"
      (convertRawOrder sampleStopRaw1)).2.1 rfl,
   (stop_loss_take_profit_price_first
      (.ok [sampleTpRaw, sampleStopRaw1, sampleStopRaw2]) "BTC"
      (convertRawOrder sampleTpRaw)).2.2.2 rfl,
   (stop_loss_take_profit_price_first (.ok []) "BTC"
      (convertRawOrder sampleTpRaw)).1 (by simp [get_open_orders])⟩

/-- Helper: one long-position trailing-stop iteration never lowers the
stop. -/
theorem trailing_tick_long_mono (tp : ℚ) (s : TrailState) (c : ℚ) :
    s.sl_price ≤ (trailing_tick_long tp s c).sl_price := by
  by_cases h1 : s.reference_price < c
  · by_cases h2 : s.sl_price < c * (1 - tp / 100)
    · simp only [trailing_tick_long, if_pos h1, if_pos h2]
      exact le_of_lt h2
    · simp only [trailing_tick_long, if_pos h1, if_neg h2]
      exact le_rfl
  · simp only [trailing_tick_long, if_neg h1]
    exact le_rfl

/-- Helper: one short-position trailing-stop iteration never raises the
stop. -/
theorem trailing_tick_short_mono (tp : ℚ) (s : TrailState) (c : ℚ) :
    (trailing_tick_short tp s c).sl_price ≤ s.sl_price := by
  by_cases h1 : c < s.reference_price
  · by_cases h2 : c * (1 + tp / 100) < s.sl_price
    · simp only [trailing_tick_short, if_pos h1, if_pos h2]
      exact le_of_lt h2
    · simp only [trailing_tick_short, if_pos h1, if_neg h2]
      exact le_rfl
  · simp only [trailing_tick_short, if_neg h1]
    exact le_rfl

/-- Helper: the long trailing-stop loop never lowers the stop over any price
sequence. -/
theorem trailing_run_long_mono (tp : ℚ) (prices : List ℚ) :
    ∀ s : TrailState, s.sl_price ≤ (trailing_run_long tp s prices).sl_price := by
  induction prices with
  | nil => intro s; exact le_rfl
  | cons c t ih =>
      intro s
      have hstep : trailing_run_long tp s (c :: t)
          = trailing_run_long tp (trailing_tick_long tp s c) t := rfl
      rw [hstep]
      exact le_trans (trailing_tick_long_mono tp s c) (ih _)

/-- Helper: the short trailing-stop loop never raises the stop over any
price sequence. -/
theorem trailing_run_short_mono (tp : ℚ) (prices : List ℚ) :
    ∀ s : TrailState, (trailing_run_short tp s prices).sl_price ≤ s.sl_price := by
  induction prices with
  | nil => intro s; exact le_rfl
  | cons c t ih =>
      intro s
      have hstep : trailing_run_short tp s (c :: t)
          = trailing_run_short tp (trailing_tick_short tp s c) t := rfl
      rw [hstep]
      exact le_trans (ih _) (trailing_tick_short_mono tp s c)

/-- C7: across every iteration of the trailing-stop loop the stop-loss
trigger for a long position never decreases (and for a short position never
increases); concretely with `trail_percent = 2.0` and reference price `100`,
an uptick to `110` moves the stop to `107.8` only when that is strictly
above the existing stop, and the subsequent downtick to `105` leaves the
stop unchanged. -/
theorem trailing_stop_never_loosens (tp : ℚ) (s : TrailState)
    (prices : List ℚ) (sl : ℚ) :
    s.sl_price ≤ (trailing_run_long tp s prices).sl_price
    ∧ (trailing_run_short tp s prices).sl_price ≤ s.sl_price
    ∧ trailing_tick_long 2 ⟨100, sl⟩ 110
        = ⟨110, if sl < 107.8 then 107.8 else sl⟩
    ∧ trailing_tick_long 2 ⟨110, sl⟩ 105 = ⟨110, sl⟩ := by
  refine ⟨trailing_run_long_mono tp prices s,
          trailing_run_short_mono tp prices s, ?_, ?_⟩
  · have h78 : (107.8:ℚ) = 539/5 := by norm_num
    rw [h78]
    by_cases hsl : sl < (539/5:ℚ)
    · norm_num [trailing_tick_long, hsl]
    · norm_num [trailing_tick_long, hsl]
  · norm_num [trailing_tick_long]

/-- C8 counterexample: on an error result the message raised by
`create_order` is the wrapped `"Failed to place order: Order error: …"`
string, which differs from the exchange's message itself. -/
theorem create_order_error_verbatim_counterexample :
    create_order_result "BTC" true 1 50000 false "Gtc"
        [.errorStatus "Insufficient margin"]
      = .error ("Failed to place order: Order error: " ++ "Insufficient margin")
    ∧ ("Failed to place order: Order error: " ++ "Insufficient margin"
        : String) ≠ "Insufficient margin" := by
  exact ⟨rfl, by decide⟩

/-- C8 (amended): whenever the structured submission result contains an
error entry, `create_order` fails with an error carrying the exchange's
message verbatim as the suffix of `"Failed to place order: Order error: "`,
and in that case it never returns an `Order`. -/
theorem create_order_error_wrapped (symbol : String) (is_buy : Bool)
    (size limit_price : ℚ) (reduce_only : Bool) (tif msg : String)
    (rest : List OrderStatusRaw) :
    create_order_result symbol is_buy size limit_price reduce_only tif
        (.errorStatus msg :: rest)
      = .error ("Failed to place order: " ++ ("Order error: " ++ msg))
    ∧ ∀ o : Order, create_order_result symbol is_buy size limit_price
        reduce_only tif (.errorStatus msg :: rest) ≠ .ok o := by
  refine ⟨rfl, ?_⟩
  intro o h
  simp [create_order_result] at h

/-- Witness for C8's amended theorem at a concrete submission. -/
theorem create_order_error_wrapped_witness :
    create_order_result "ETH" false 2 1800 true "Ioc"
        [.errorStatus "Price too far from oracle"]
      = .error ("Failed to place order: "
          ++ ("Order error: " ++ "Price too far from oracle")) :=
  (create_order_error_wrapped "ETH" false 2 1800 true "Ioc"
    "Price too far from oracle" []).1

/-- Helper: the cancellation loop attempts every order in the list exactly
once, whatever the individual outcomes. -/
theorem cancelEachOrder_fst (f : RawOrder → Bool) :
    ∀ l : List RawOrder, (cancelEachOrder f l).map Prod.fst = l := by
  intro l
  induction l with
  | nil => rfl
  | cons o t ih => simp [cancelEachOrder, ih]

/-- C9: `cancel_all_orders` cancels each fetched open order independently —
the result records one attempt per fetched (filtered) order, so one failed
cancellation never aborts the rest — and the call itself never surfaces an
error (so it can only fail if the enumeration step did); a call that finds
no open orders does not raise. -/
theorem cancel_all_orders_best_effort (fetch : Except String (List RawOrder))
    (cancelOk : RawOrder → Bool) (symbol : Option String) :
    (∀ msg, cancel_all_orders fetch cancelOk symbol ≠ .error msg)
    ∧ (∀ orders, fetch = .ok orders →
        ∀ attempted,
          cancel_all_orders fetch cancelOk symbol = .ok attempted →
          attempted.map Prod.fst
            = (match symbol with
               | some s => orders.filter (fun (o : RawOrder) => o.coin == s)
               | none => orders))
    ∧ cancel_all_orders (.ok []) cancelOk symbol = .ok [] := by
  refine ⟨?_, ?_, ?_⟩
  · intro msg h
    cases fetch <;> simp [cancel_all_orders] at h
  · intro orders horders attempted h
    subst horders
    simp [cancel_all_orders] at h
    subst h
    exact cancelEachOrder_fst cancelOk _
  · cases symbol <;> simp [cancel_all_orders, cancelEachOrder]

/-- Witness for C9: with one open order and an always-failing cancel call,
the call still returns successfully and the order was attempted; the
empty-enumeration call returns successfully as well. -/
theorem cancel_all_orders_best_effort_witness :
    (cancel_all_orders (.ok [sampleStopRaw1]) (fun _ => false) none
        = .ok [(sampleStopRaw1, false)])
    ∧ [(sampleStopRaw1, false)].map Prod.fst = [sampleStopRaw1]
    ∧ cancel_all_orders (.ok []) (fun _ => false) none = .ok [] := by
  refine ⟨rfl, ?_, (cancel_all_orders_best_effort (.ok [])
    (fun _ => false) none).2.2⟩
  exact (cancel_all_orders_best_effort (.ok [sampleStopRaw1])
    (fun _ => false) none).2.1 [sampleStopRaw1] rfl [(sampleStopRaw1, false)] rfl

/-- C10: for an authenticated client, when the fetch inside
`get_open_orders` fails, the error is swallowed and the empty list is
returned; consequently `get_stop_loss_price` and `get_take_profit_price`
observe "no orders" (`none`) rather than a failure. -/
theorem get_open_orders_swallows_fetch_error (e : String)
    (symbol : Option String) (sym : String) :
    get_open_orders (.error e) symbol = []
    ∧ get_stop_loss_price (.error e) sym = none
    ∧ get_take_profit_price (.error e) sym = none := by
  refine ⟨rfl, ?_, ?_⟩ <;>
    simp [get_stop_loss_price, get_take_profit_price, get_open_orders]

/-- Witness for C5 at current price `100`: the synthesized buy price is
`100.5`. -/
theorem create_order_market_slippage_witness :
    marketOrderRawPrice true 100 = 100 * 1.005 :=
  (create_order_market_slippage [] "BTC" 1 100).1

/-- Witness for C7: a downtick to `105` after a reference price of `110`
leaves a stop of `90` unchanged. -/
theorem trailing_stop_never_loosens_witness :
    trailing_tick_long 2 ⟨110, 90⟩ 105 = ⟨110, 90⟩ :=
  (trailing_stop_never_loosens 2 ⟨100, 90⟩ [] 90).2.2.2

/-- Witness for C10 at a concrete fetch error. -/
theorem get_open_orders_swallows_fetch_error_witness :
    get_open_orders (.error "connection reset") none = []
    ∧ get_stop_loss_price (.error "connection reset") "BTC" = none :=
  ⟨(get_open_orders_swallows_fetch_error "connection reset" none "BTC").1,
   (get_open_orders_swallows_fetch_error "connection reset" none "BTC").2.1⟩
